import Mathlib

set_option maxRecDepth 100000

/-!
Verification development for the apkeep download sources
(`src/download_sources/apkmirror.rs` and `src/download_sources/apkcombo.rs`).

The Rust code is shallowly embedded: each `download_app` becomes a pure Lean
function over a `World` (a map from URLs to HTTP responses plus a file-system
error oracle), returning the result together with the exact list of URLs it
fetched and the file writes it performed.  The `regex` crate patterns used by
the code are embedded by a small executable matcher (`Rx`, `matchSeq`,
`rxFind`): the patterns only use literals, character-class repetitions
(greedy and lazy), and one alternation, so Perl-style leftmost-first
backtracking — which coincides with the `regex` crate's leftmost-first
semantics on these patterns — is implemented totally.
-/

/-- Substring test on character lists: does `n` occur contiguously in the
second argument?  Models Rust `str::contains` for string needles. -/
def containsList (n : List Char) : List Char → Bool
  | [] => n.isEmpty
  | c :: t => n.isPrefixOf (c :: t) || containsList n t

/-- Models Rust `line.contains(needle)` (needle first, haystack second). -/
def containsSub (needle hay : String) : Bool :=
  containsList needle.data hay.data

/-- Is `p` a prefix of `s`?  Models Rust `str::starts_with` and path
absoluteness tests. -/
def strIsPrefixOf (p s : String) : Bool :=
  p.data.isPrefixOf s.data

/-- Drop leading ASCII whitespace. -/
def dropWs : List Char → List Char
  | [] => []
  | c :: t => if c = ' ' || c = '\t' || c = '\n' || c = '\r' then dropWs t else c :: t

/-- Models Rust `str::trim` (the ASCII part of Unicode whitespace; the
scraped values in play are ASCII). -/
def rustTrim (s : String) : String :=
  String.mk ((dropWs (dropWs s.data).reverse).reverse)

/-- Split a character list at every newline character; the newline is not
kept.  An empty input yields one empty segment. -/
def splitNl : List Char → List (List Char)
  | [] => [[]]
  | c :: t =>
    match splitNl t with
    | [] => [[]]
    | l :: ls => if c = '\n' then [] :: l :: ls else (c :: l) :: ls

/-- Drop one trailing carriage return, as Rust `str::lines` does for `\r\n`
line endings. -/
def stripCr (l : List Char) : List Char :=
  if l.getLast? = some '\r' then l.dropLast else l

/-- Models Rust `str::lines`: split on `\n`, strip one trailing `\r` per
line, and do not produce a final empty line for a trailing newline. -/
def rustLines (s : String) : List String :=
  if s.data.isEmpty then []
  else
    let segs := splitNl s.data
    let segs := if s.data.getLast? = some '\n' then segs.dropLast else segs
    segs.map (fun l => String.mk (stripCr l))

/-- A fragment of a regular expression, sufficient for every pattern in the
two source files: literals, repeated character classes (`[^x]+`, `[^x]+?`,
`[^x]*`, `\s+`), capture-group boundary markers, and one alternation. -/
inductive Rx where
  | lit (cs : List Char)
  | rep (p : Char → Bool) (min1 : Bool) (greedy : Bool)
  | mark (g : Nat) (isStart : Bool)
  | alt2 (b1 b2 : List Rx)

mutual

/-- Size of one pattern element (alternation counts both branches). -/
def rxSize : Rx → Nat
  | .lit _ => 1
  | .rep _ _ _ => 1
  | .mark _ _ => 1
  | .alt2 b1 b2 => 1 + rxsSize b1 + rxsSize b2

/-- Size of a pattern (a sequence of elements). -/
def rxsSize : List Rx → Nat
  | [] => 0
  | r :: rs => rxSize r + rxsSize rs

end

/-- Length of the maximal run of characters satisfying `p` at the front. -/
def runLen (p : Char → Bool) : List Char → Nat
  | [] => 0
  | c :: t => if p c then runLen p t + 1 else 0

/-- The candidate repetition counts for a character-class repetition with
maximal run `m` and minimum `lo`, in backtracking preference order:
longest first when greedy, shortest first when lazy. -/
def countsFor (lo m : Nat) (greedy : Bool) : List Nat :=
  let asc := (List.range (m + 1 - lo)).map (fun i => i + lo)
  if greedy then asc.reverse else asc

/-- Match a pattern sequence against the input suffix `s` (whose first
character sits at absolute position `pos` of the original subject),
threading the capture-boundary marks recorded so far.  Returns the marks of
the first (in backtracking preference order) complete match, or `none`.
The `fuel` argument only makes the recursion structural: every recursive
call strictly decreases `rxsSize` of the pattern, so starting the fuel at
`rxsSize ps + 1` (as `matchSeq` below does) it is never exhausted. -/
def matchSeqF : Nat → List Rx → List Char → Nat → List (Nat × Bool × Nat) →
    Option (List (Nat × Bool × Nat))
  | 0, _, _, _, _ => none
  | _ + 1, [], _, _, marks => some marks
  | fuel + 1, .lit cs :: rest, s, pos, marks =>
    if cs.isPrefixOf s then matchSeqF fuel rest (s.drop cs.length) (pos + cs.length) marks
    else none
  | fuel + 1, .mark g b :: rest, s, pos, marks =>
    matchSeqF fuel rest s pos ((g, b, pos) :: marks)
  | fuel + 1, .alt2 b1 b2 :: rest, s, pos, marks =>
    match matchSeqF fuel (b1 ++ rest) s pos marks with
    | some r => some r
    | none => matchSeqF fuel (b2 ++ rest) s pos marks
  | fuel + 1, .rep p min1 greedy :: rest, s, pos, marks =>
    (countsFor (if min1 then 1 else 0) (runLen p s) greedy).findSome?
      (fun n => matchSeqF fuel rest (s.drop n) (pos + n) marks)

/-- The matcher `matchSeqF` at its always-sufficient fuel. -/
def matchSeq (ps : List Rx) (s : List Char) (pos : Nat)
    (marks : List (Nat × Bool × Nat)) : Option (List (Nat × Bool × Nat)) :=
  matchSeqF (rxsSize ps + 1) ps s pos marks

/-- Leftmost-first search: try to match the pattern at each start position
of the subject, left to right, and return the capture marks of the first
position that matches.  This is the semantics of `Regex::captures`. -/
def rxFind (ps : List Rx) : List Char → Nat → Option (List (Nat × Bool × Nat))
  | [], pos => matchSeq ps [] pos []
  | c :: t, pos =>
    match matchSeq ps (c :: t) pos [] with
    | some marks => some marks
    | none => rxFind ps t (pos + 1)

/-- Run a pattern over a string, returning the capture marks of the
leftmost match (Rust `re.captures(s)` succeeding). -/
def rxCaptures (ps : List Rx) (s : String) : Option (List (Nat × Bool × Nat)) :=
  rxFind ps s.data 0

/-- Recover the text of capture group `g` from recorded marks (the most
recently recorded start/end pair, matching how a successful backtracking
run leaves exactly the marks of the surviving branch). -/
def rxGroup (s : List Char) (marks : List (Nat × Bool × Nat)) (g : Nat) :
    Option (List Char) :=
  match marks.find? (fun m => m.1 == g && m.2.1), marks.find? (fun m => m.1 == g && !m.2.1) with
  | some st, some en => some ((s.drop st.2.2).take (en.2.2 - st.2.2))
  | _, _ => none

/-- Rust `re.captures(s).map(|cap| cap[g])` (and `cap.get(g)`): the leftmost
match's group `g`, as a string. -/
def capGroup (ps : List Rx) (s : String) (g : Nat) : Option String :=
  (rxCaptures ps s).bind (fun marks => (rxGroup s.data marks g).map (fun cs => String.mk cs))

/-! ## Character classes appearing in the source patterns -/

/-- Class `[^"]`. -/
def notQuote (c : Char) : Bool := c != '"'

/-- Class `[^;]`. -/
def notSemi (c : Char) : Bool := c != ';'

/-- Class `[^>]`. -/
def notGt (c : Char) : Bool := c != '>'

/-- Class `[^<]`. -/
def notLt (c : Char) : Bool := c != '<'

/-- Class `[^/]`. -/
def notSlash (c : Char) : Bool := c != '/'

/-- Class `\s` (the ASCII part of the class; the pages and headers involved are
ASCII, and every theorem below either fixes the subject concretely or
hypothesises the match outcome). -/
def rsSpace (c : Char) : Bool :=
  c == ' ' || c == '\t' || c == '\n' || c == '\r' || c == '\x0b' || c == '\x0c'

/-! ## The HTTP and file-system model

A `World` fixes, for every URL, either a transport error (reqwest `Err`)
or a response; and for every file path, whether creating/writing the file
fails.  Reading a response body (`text()` / `bytes()`) is modelled as
always succeeding, and building the HTTP client never fails; none of the
claims concerns those error paths.  Following the code, a non-2xx status
is delivered as a normal response and classified by the caller. -/

structure HttpResponse where
  status : Nat
  headers : List (String × String)
  body : String
deriving DecidableEq, Repr

/-- reqwest `status().is_success()`: a 2xx status code. -/
def HttpResponse.isSuccess (r : HttpResponse) : Bool :=
  decide (200 ≤ r.status ∧ r.status < 300)

structure World where
  net : String → Except String HttpResponse
  fsErr : String → Option String

/-- reqwest `headers().get(name)` followed by `to_str().ok()`: header names
are stored normalized (lower-case), and the values in play are ASCII, so
the `to_str` step is modelled as always succeeding. -/
def headerGet (r : HttpResponse) (name : String) : Option String :=
  (r.headers.find? (fun h => h.1 == name)).map (fun h => h.2)

/-- Models `Display` of a `reqwest::StatusCode` as the bare code digits
(the crate also appends the canonical reason phrase; no claim depends on
that suffix). -/
def statusText (n : Nat) : String := toString n

/-- The result of one `download_app` call: the `Result<String, String>` the
Rust function returns, together with the URLs it fetched, in order, and the
file writes it performed as (path, contents) pairs. -/
structure RunResult where
  result : Except String String
  fetched : List String
  writes : List (String × String)

/-- Models `std::path::Path::join` on Unix: an absolute right operand
replaces the base, otherwise the two are joined with a separator. -/
def pathJoin (base child : String) : String :=
  if strIsPrefixOf "/" child then child else base ++ "/" ++ child

/-- An association-list file system: `File::create` + `write_all` replaces
the file's contents wholesale (create truncates an existing file). -/
def fsWrite (fs : List (String × String)) (path data : String) : List (String × String) :=
  (path, data) :: fs

/-- The current contents of `path`, latest write first. -/
def fsRead (fs : List (String × String)) (path : String) : Option String :=
  (fs.find? (fun e => e.1 == path)).map (fun e => e.2)

/-- Split a path on `/` and resolve `.` and `..` components lexically;
used only to state that a written path escapes the output directory. -/
def normSegs (acc : List String) : List String → List String
  | [] => acc.reverse
  | seg :: rest =>
    if seg == "." || seg == "" then normSegs acc rest
    else if seg == ".." then
      match acc with
      | [] => normSegs [".."] rest
      | _ :: t => normSegs t rest
    else normSegs (seg :: acc) rest

/-- Split a character list at every slash (the slash is not kept). -/
def splitSlash : List Char → List (List Char)
  | [] => [[]]
  | c :: t =>
    match splitSlash t with
    | [] => [[]]
    | l :: ls => if c = '/' then [] :: l :: ls else (c :: l) :: ls

/-- Join path components with slashes. -/
def joinSlash : List String → String
  | [] => ""
  | [seg] => seg
  | seg :: rest => seg ++ "/" ++ joinSlash rest

/-- Lexical normalization of a path. -/
def normalizePath (p : String) : String :=
  joinSlash (normSegs [] ((splitSlash p.data).map (fun l => String.mk l)))

/-- One reported outcome per request, as printed by `download_apps`:
`Successfully downloaded {id} as {filename}` or `Error downloading {id}:
{reason}`. -/
inductive DownloadOutcome where
  | saved (filename : String)
  | failed (reason : String)
deriving DecidableEq, Repr

/-- The content-disposition pattern `filename=(?:"([^"]+)"|([^;]+))` shared
by both sources (the quoted branch is tried first at each position). -/
def filenameRe : List Rx :=
  [Rx.lit "filename=".data,
   Rx.alt2
     [Rx.lit "\"".data, Rx.mark 1 true, Rx.rep notQuote true true,
      Rx.mark 1 false, Rx.lit "\"".data]
     [Rx.mark 2 true, Rx.rep notSemi true true, Rx.mark 2 false]]

/-- Models `cap.get(1).unwrap_or_else(|| cap.get(2).unwrap())` over `filenameRe`:
the quoted group if it participated in the match, else the bare group (the
pattern guarantees one of the two, so the final `.unwrap()` cannot fire;
the `""` default is unreachable). -/
def cdFilename (s : String) : Option String :=
  (rxCaptures filenameRe s).map (fun marks =>
    match rxGroup s.data marks 1 with
    | some cs => String.mk cs
    | none =>
      match rxGroup s.data marks 2 with
      | some cs => String.mk cs
      | none => "")

/-! ## src/download_sources/apkmirror.rs -/

namespace Apkmirror

/-- URL `https://www.apkmirror.com/?post_type=app_release&searchtype=apk&s=` ++ id. -/
def searchUrl (app_id : String) : String :=
  "https://www.apkmirror.com/?post_type=app_release&searchtype=apk&s=" ++ app_id

/-- Pattern `href="(https://www\.apkmirror\.com/apk/[^"]+)`. -/
def appUrlRe : List Rx :=
  [Rx.lit "href=\"".data, Rx.mark 1 true,
   Rx.lit "https://www.apkmirror.com/apk/".data,
   Rx.rep notQuote true true, Rx.mark 1 false]

/-- Pattern `href="(https://www\.apkmirror\.com/apk/[^"]+/[^"]+/[^"]+?-release/[^"]+)`. -/
def versionUrlRe : List Rx :=
  [Rx.lit "href=\"".data, Rx.mark 1 true,
   Rx.lit "https://www.apkmirror.com/apk/".data,
   Rx.rep notQuote true true, Rx.lit "/".data,
   Rx.rep notQuote true true, Rx.lit "/".data,
   Rx.rep notQuote true false, Rx.lit "-release/".data,
   Rx.rep notQuote true true, Rx.mark 1 false]

/-- The source's `latest_url_re` is textually the same pattern as `version_url_re`. -/
def latestUrlRe : List Rx := versionUrlRe

/-- Pattern `href="(/apk/[^"]+/download)`. -/
def downloadPageRe : List Rx :=
  [Rx.lit "href=\"".data, Rx.mark 1 true, Rx.lit "/apk/".data,
   Rx.rep notQuote true true, Rx.lit "/download".data, Rx.mark 1 false]

/-- Pattern `href="([^"]+)"[^>]*>Download APK</a>` (the raw string in the source is
written with an unbalanced delimiter; this is the evident pattern between
the delimiters). -/
def downloadUrlRe : List Rx :=
  [Rx.lit "href=\"".data, Rx.mark 1 true, Rx.rep notQuote true true,
   Rx.mark 1 false, Rx.lit "\"".data, Rx.rep notGt false true,
   Rx.lit ">Download APK</a>".data]

/-- Search-result extraction: `html.lines().find(|line|
line.contains("widget_appRow") && line.contains(app_id)).and_then(|line|
app_url_re.captures(line).map(|cap| cap[1]))`. -/
def findAppUrl (app_id html : String) : Option String :=
  ((rustLines html).find?
      (fun line => containsSub "widget_appRow" line && containsSub app_id line)).bind
    (fun line => capGroup appUrlRe line 1)

/-- Version-page extraction: `lines().find(|line| line.contains(version_str)
&& line.contains("downloadButton")).and_then(|line|
version_url_re.captures(line).map(|cap| cap[1]))`. -/
def findVersionUrl (version_str html : String) : Option String :=
  ((rustLines html).find?
      (fun line => containsSub version_str line && containsSub "downloadButton" line)).bind
    (fun line => capGroup versionUrlRe line 1)

/-- Latest-version extraction: `lines().find(|line|
line.contains("downloadButton")).and_then(|line|
latest_url_re.captures(line).map(|cap| cap[1]))`. -/
def findLatestUrl (html : String) : Option String :=
  ((rustLines html).find? (fun line => containsSub "downloadButton" line)).bind
    (fun line => capGroup latestUrlRe line 1)

/-- Filename derivation at the download step: content-disposition filename
if the header is present and the pattern matches, else
`{app_id}-{version}.apk` when a version is known, else `{app_id}.apk`. -/
def resolveFilename (r : HttpResponse) (app_id : String) (version : Option String) : String :=
  match (headerGet r "content-disposition").bind cdFilename with
  | some f => f
  | none =>
    match version with
    | some v => app_id ++ "-" ++ v ++ ".apk"
    | none => app_id ++ ".apk"

/-- Final stage: GET the binary URL, derive the filename, and write the
bytes to `output_path.join(filename)`.  A single failure point models the
`File::create` / `write_all` errors. -/
def stage5Download (w : World) (app_id : String) (version : Option String)
    (output_path : String) (download_url : String) (tr : List String) : RunResult :=
  match w.net download_url with
  | .error e => ⟨.error ("Failed to download APK: " ++ e), tr ++ [download_url], []⟩
  | .ok r =>
    if r.isSuccess then
      match w.fsErr (pathJoin output_path (resolveFilename r app_id version)) with
      | some e => ⟨.error ("Failed to create output file: " ++ e), tr ++ [download_url], []⟩
      | none =>
        ⟨.ok (resolveFilename r app_id version), tr ++ [download_url],
         [(pathJoin output_path (resolveFilename r app_id version), r.body)]⟩
    else
      ⟨.error ("Failed to download APK: HTTP " ++ statusText r.status), tr ++ [download_url], []⟩

/-- Fourth stage: GET the download page and scan the whole body for the
final link; its capture is unconditionally prefixed with
`https://www.apkmirror.com`. -/
def stage4DownloadPage (w : World) (app_id : String) (version : Option String)
    (output_path : String) (download_page_url : String) (tr : List String) : RunResult :=
  match w.net download_page_url with
  | .error e => ⟨.error ("Failed to access download page: " ++ e), tr ++ [download_page_url], []⟩
  | .ok r =>
    if r.isSuccess then
      match capGroup downloadUrlRe r.body 1 with
      | none => ⟨.error ("Final download link not found for " ++ app_id), tr ++ [download_page_url], []⟩
      | some download_path =>
        stage5Download w app_id version output_path
          ("https://www.apkmirror.com" ++ download_path) (tr ++ [download_page_url])
    else
      ⟨.error ("Failed to access download page: HTTP " ++ statusText r.status),
       tr ++ [download_page_url], []⟩

/-- Third stage: GET the version page and scan the whole body for the
download-page link; its capture is unconditionally prefixed with
`https://www.apkmirror.com`. -/
def stage3VersionPage (w : World) (app_id : String) (version : Option String)
    (output_path : String) (version_page_url : String) (tr : List String) : RunResult :=
  match w.net version_page_url with
  | .error e => ⟨.error ("Failed to access version page: " ++ e), tr ++ [version_page_url], []⟩
  | .ok r =>
    if r.isSuccess then
      match capGroup downloadPageRe r.body 1 with
      | none => ⟨.error ("Download page link not found for " ++ app_id), tr ++ [version_page_url], []⟩
      | some download_page_path =>
        stage4DownloadPage w app_id version output_path
          ("https://www.apkmirror.com" ++ download_page_path) (tr ++ [version_page_url])
    else
      ⟨.error ("Failed to access version page: HTTP " ++ statusText r.status),
       tr ++ [version_page_url], []⟩

/-- Second stage (`let version_page_url = if let Some(version_str) = version
{...} else {...}`): with a version, search `{app_url}/?q={version}` for a
line carrying both the version string and `downloadButton`; without one,
take the first `downloadButton` line of the app page.  Returns the located
version-page URL or the stage's error, with the URL fetched. -/
def locateVersionPage (w : World) (app_id : String) (version : Option String)
    (app_url : String) : Except String String × List String :=
  match version with
  | some version_str =>
    match w.net (app_url ++ "/?q=" ++ version_str) with
    | .error e => (.error ("Failed to search for version: " ++ e), [app_url ++ "/?q=" ++ version_str])
    | .ok r =>
      if r.isSuccess then
        match findVersionUrl version_str r.body with
        | none =>
          (.error ("Version " ++ version_str ++ " not found for " ++ app_id),
           [app_url ++ "/?q=" ++ version_str])
        | some version_page_url => (.ok version_page_url, [app_url ++ "/?q=" ++ version_str])
      else
        (.error ("Failed to search for version: HTTP " ++ statusText r.status),
         [app_url ++ "/?q=" ++ version_str])
  | none =>
    match w.net app_url with
    | .error e => (.error ("Failed to access app page: " ++ e), [app_url])
    | .ok r =>
      if r.isSuccess then
        match findLatestUrl r.body with
        | none => (.error ("Latest version link not found for " ++ app_id), [app_url])
        | some version_page_url => (.ok version_page_url, [app_url])
      else
        (.error ("Failed to access app page: HTTP " ++ statusText r.status), [app_url])

/-- Model of `download_app` of apkmirror.rs: search, locate the version page (via the
requested version or the latest `downloadButton`), follow it to the
download page, extract the final link, download and save. -/
def download_app (w : World) (app_id : String) (version : Option String)
    (output_path : String) : RunResult :=
  match w.net (searchUrl app_id) with
  | .error e => ⟨.error ("Failed to search for app: " ++ e), [searchUrl app_id], []⟩
  | .ok r =>
    if r.isSuccess then
      match findAppUrl app_id r.body with
      | none => ⟨.error ("App " ++ app_id ++ " not found on APKMirror"), [searchUrl app_id], []⟩
      | some app_url =>
        match locateVersionPage w app_id version app_url with
        | (.error e, us) => ⟨.error e, searchUrl app_id :: us, []⟩
        | (.ok version_page_url, us) =>
          stage3VersionPage w app_id version output_path version_page_url
            (searchUrl app_id :: us)
    else
      ⟨.error ("Failed to search for app: HTTP " ++ statusText r.status), [searchUrl app_id], []⟩

/-- One task of `download_apps`: run `download_app` and convert its result
into the reported outcome (an `Err` is printed and the batch continues). -/
def processOne (w : World) (output_path : String) (req : String × Option String) :
    DownloadOutcome :=
  match (download_app w req.1 req.2 output_path).result with
  | .ok filename => .saved filename
  | .error e => .failed e

/-- Outcome-level model of `download_apps`: the buffered stream is drained
to completion, producing exactly the per-request outcomes (the
`parallel` bound and pacing delay do not affect any outcome and are
modelled separately by `BatchStep`). -/
def download_apps (w : World) (app_ids : List (String × Option String))
    (_parallel : Nat) (_sleep_duration : Nat) (output_path : String) : List DownloadOutcome :=
  app_ids.map (processOne w output_path)

/-- Pattern `<div class="infoSlide-value"[^>]*>([^<]+)</div>`. -/
def versionRe : List Rx :=
  [Rx.lit "<div class=\"infoSlide-value\"".data, Rx.rep notGt false true,
   Rx.lit ">".data, Rx.mark 1 true, Rx.rep notLt true true, Rx.mark 1 false,
   Rx.lit "</div>".data]

/-- Pattern `<p class="datetime_utc"[^>]*>([^<]+)</p>`. -/
def dateRe : List Rx :=
  [Rx.lit "<p class=\"datetime_utc\"".data, Rx.rep notGt false true,
   Rx.lit ">".data, Rx.mark 1 true, Rx.rep notLt true true, Rx.mark 1 false,
   Rx.lit "</p>".data]

/-- The fallback date window of `list_versions`: skip lines of the whole
page until the first one containing the (trimmed) version string, then look
at five lines from there. -/
def dateWindow (allLines : List String) (version : String) : List String :=
  (allLines.dropWhile (fun l => !containsSub version l)).take 5

/-- The per-line loop of `list_versions`: for every line whose first
`infoSlide-value` match yields a version, pair it with the date found on
that line or, failing that, the first `datetime_utc` capture in the
fallback window, defaulting to `"Unknown date"`. -/
def versionsLoop (allLines : List String) : List String → List (String × String)
  | [] => []
  | line :: rest =>
    match capGroup versionRe line 1 with
    | none => versionsLoop allLines rest
    | some v0 =>
      match (capGroup dateRe line 1).orElse
          (fun _ => (dateWindow allLines (rustTrim v0)).findSome? (fun l => capGroup dateRe l 1)) with
      | some date => (rustTrim v0, rustTrim date) :: versionsLoop allLines rest
      | none => (rustTrim v0, "Unknown date") :: versionsLoop allLines rest

/-- The version/date extraction of `list_versions` over a fetched app
page. -/
def extractVersions (app_html : String) : List (String × String) :=
  versionsLoop (rustLines app_html) (rustLines app_html)

end Apkmirror

/-! ## src/download_sources/apkcombo.rs -/

namespace Apkcombo

/-- URL `https://apkcombo.com/search/` ++ id ++ `/`. -/
def searchUrl (app_id : String) : String :=
  "https://apkcombo.com/search/" ++ app_id ++ "/"

/-- Pattern `href="(/[^/]+/[^/]+/[^"]+)`. -/
def appUrlRe : List Rx :=
  [Rx.lit "href=\"".data, Rx.mark 1 true, Rx.lit "/".data,
   Rx.rep notSlash true true, Rx.lit "/".data,
   Rx.rep notSlash true true, Rx.lit "/".data,
   Rx.rep notQuote true true, Rx.mark 1 false]

/-- Pattern `downloadButton"\s+href="([^"]+)`. -/
def downloadUrlRe : List Rx :=
  [Rx.lit "downloadButton\"".data, Rx.rep rsSpace true true,
   Rx.lit "href=\"".data, Rx.mark 1 true, Rx.rep notQuote true true,
   Rx.mark 1 false]

/-- Pattern `href="(https://[^"]+\.apk[^"]*)`. -/
def finalUrlRe : List Rx :=
  [Rx.lit "href=\"".data, Rx.mark 1 true, Rx.lit "https://".data,
   Rx.rep notQuote true true, Rx.lit ".apk".data,
   Rx.rep notQuote false true, Rx.mark 1 false]

/-- Search-result extraction: `html.lines().filter(|line|
line.contains(app_id)).find_map(|line| app_url_re.captures(line).map(|cap|
cap[1]))` — filtered lines that fail the pattern are skipped and later
filtered lines are still scanned. -/
def findAppUrl (app_id html : String) : Option String :=
  ((rustLines html).filter (fun line => containsSub app_id line)).findSome?
    (fun line => capGroup appUrlRe line 1)

/-- Models `if download_url.starts_with("http") { download_url } else {
format!("https://apkcombo.com{}", download_url) }` -/
def absolutize (download_url : String) : String :=
  if strIsPrefixOf "http" download_url then download_url
  else "https://apkcombo.com" ++ download_url

/-- Filename derivation: content-disposition filename if present and
matching, else `{app_id}.apk` — `download_app` here receives no version. -/
def resolveFilename (r : HttpResponse) (app_id : String) : String :=
  match (headerGet r "content-disposition").bind cdFilename with
  | some f => f
  | none => app_id ++ ".apk"

/-- Final stage: GET the binary URL, derive the filename, write the bytes
to `output_path.join(filename)`. -/
def stage4Download (w : World) (app_id : String) (output_path : String)
    (final_download_url : String) (tr : List String) : RunResult :=
  match w.net final_download_url with
  | .error e => ⟨.error ("Failed to download APK: " ++ e), tr ++ [final_download_url], []⟩
  | .ok r =>
    if r.isSuccess then
      match w.fsErr (pathJoin output_path (resolveFilename r app_id)) with
      | some e => ⟨.error ("Failed to create output file: " ++ e), tr ++ [final_download_url], []⟩
      | none =>
        ⟨.ok (resolveFilename r app_id), tr ++ [final_download_url],
         [(pathJoin output_path (resolveFilename r app_id), r.body)]⟩
    else
      ⟨.error ("Failed to download APK: HTTP " ++ statusText r.status),
       tr ++ [final_download_url], []⟩

/-- Third stage: GET the download page and scan the whole body for the
final `.apk` link, used as-is (the pattern only captures absolute URLs). -/
def stage3DownloadPage (w : World) (app_id : String) (output_path : String)
    (full_download_url : String) (tr : List String) : RunResult :=
  match w.net full_download_url with
  | .error e => ⟨.error ("Failed to access download page: " ++ e), tr ++ [full_download_url], []⟩
  | .ok r =>
    if r.isSuccess then
      match capGroup finalUrlRe r.body 1 with
      | none => ⟨.error ("Final APK download link not found for " ++ app_id), tr ++ [full_download_url], []⟩
      | some final_download_url =>
        stage4Download w app_id output_path final_download_url (tr ++ [full_download_url])
    else
      ⟨.error ("Failed to access download page: HTTP " ++ statusText r.status),
       tr ++ [full_download_url], []⟩

/-- Second stage: GET the app page (`https://apkcombo.com{app_url}`), scan
the whole body for the `downloadButton` link, and absolutize it. -/
def stage2AppPage (w : World) (app_id : String) (output_path : String)
    (full_app_url : String) (tr : List String) : RunResult :=
  match w.net full_app_url with
  | .error e => ⟨.error ("Failed to access app page: " ++ e), tr ++ [full_app_url], []⟩
  | .ok r =>
    if r.isSuccess then
      match capGroup downloadUrlRe r.body 1 with
      | none => ⟨.error ("Download link not found for " ++ app_id), tr ++ [full_app_url], []⟩
      | some download_url =>
        stage3DownloadPage w app_id output_path (absolutize download_url) (tr ++ [full_app_url])
    else
      ⟨.error ("Failed to access app page: HTTP " ++ statusText r.status),
       tr ++ [full_app_url], []⟩

/-- Model of `download_app` of apkcombo.rs: search, follow the first matching app
link, find the download button, follow it, download and save.  Note the
function takes no version: the orchestrator drops it. -/
def download_app (w : World) (app_id : String) (output_path : String) : RunResult :=
  match w.net (searchUrl app_id) with
  | .error e => ⟨.error ("Failed to search for app: " ++ e), [searchUrl app_id], []⟩
  | .ok r =>
    if r.isSuccess then
      match findAppUrl app_id r.body with
      | none => ⟨.error ("App " ++ app_id ++ " not found on APKCombo"), [searchUrl app_id], []⟩
      | some app_url =>
        stage2AppPage w app_id output_path ("https://apkcombo.com" ++ app_url)
          [searchUrl app_id]
    else
      ⟨.error ("Failed to search for app: HTTP " ++ statusText r.status), [searchUrl app_id], []⟩

/-- One task of `download_apps`: if the request carries a version, print the
unsupported-version warning; then run `download_app` *without* the version
and convert its result into the reported outcome.  Returns the printed
warnings together with the outcome. -/
def processOne (w : World) (output_path : String) (req : String × Option String) :
    List String × DownloadOutcome :=
  let warnings :=
    match req.2 with
    | some _ =>
      ["Warning: APKCombo does not support downloading specific versions. Will download the latest version for " ++ req.1]
    | none => []
  match (download_app w req.1 output_path).result with
  | .ok filename => (warnings, .saved filename)
  | .error e => (warnings, .failed e)

/-- Outcome-level model of apkcombo's `download_apps` (same drain loop as
apkmirror's). -/
def download_apps (w : World) (app_ids : List (String × Option String))
    (_parallel : Nat) (_sleep_duration : Nat) (output_path : String) :
    List (List String × DownloadOutcome) :=
  app_ids.map (processOne w output_path)

end Apkcombo

/-! ## Operational model of `buffer_unordered(parallel)`

`download_apps` drives its request futures through
`futures::stream::iter(..).map(..).buffer_unordered(parallel)` and drains
the stream.  The combinator keeps at most `parallel` futures in flight and
starts the next queued future only while fewer than `parallel` are active.
The model: a state holds the queued tasks (by remaining fetch-stage count)
and the in-flight tasks; steps start, advance, or finish tasks. -/

structure BatchState where
  pending : List Nat
  active : List Nat
deriving DecidableEq, Repr

inductive BatchStep (parallel : Nat) : BatchState → BatchState → Prop where
  | start (t : Nat) (rest act : List Nat) :
      act.length < parallel →
      BatchStep parallel ⟨t :: rest, act⟩ ⟨rest, t :: act⟩
  | work (pre post : List Nat) (n : Nat) (pend : List Nat) :
      BatchStep parallel ⟨pend, pre ++ (n + 1) :: post⟩ ⟨pend, pre ++ n :: post⟩
  | finish (pre post : List Nat) (pend : List Nat) :
      BatchStep parallel ⟨pend, pre ++ 0 :: post⟩ ⟨pend, pre ++ post⟩

/-- States reachable by the buffered driver from the initial batch. -/
inductive BatchReach (parallel : Nat) (tasks : List Nat) : BatchState → Prop where
  | init : BatchReach parallel tasks ⟨tasks, []⟩
  | step (s s' : BatchState) :
      BatchReach parallel tasks s → BatchStep parallel s s' →
      BatchReach parallel tasks s'

/-! ## Concrete pages and worlds used by the witnesses and counterexamples -/

/-- Search-result page with one matching `widget_appRow` line. -/
def mSearchHtml : String :=
  "<div class=\"widget_appRow\"><a href=\"https://www.apkmirror.com/apk/dev/com.example.app/\">App</a></div>"

/-- The app URL captured from `mSearchHtml`. -/
def mAppUrl : String := "https://www.apkmirror.com/apk/dev/com.example.app/"

/-- App page whose `downloadButton` line carries a `-release/` link. -/
def mAppHtml : String :=
  "<a class=\"downloadButton\" href=\"https://www.apkmirror.com/apk/dev/app/com-example-app-2-0-release/apk/\">2.0</a>"

/-- The version-page URL captured from `mAppHtml`. -/
def mVerPageUrl : String :=
  "https://www.apkmirror.com/apk/dev/app/com-example-app-2-0-release/apk/"

/-- Version page with a relative `/apk/.../download` link. -/
def mVerHtml : String :=
  "<a href=\"/apk/dev/app/com-example-app-2-0-release/download\">DL</a>"

/-- The download-page URL formed by prefixing the capture from `mVerHtml`. -/
def mDpUrl : String :=
  "https://www.apkmirror.com/apk/dev/app/com-example-app-2-0-release/download"

/-- Download page with a relative final link. -/
def mDlHtml : String := "<a href=\"/apk/dl/file?key=1\" class=\"x\">Download APK</a>"

/-- The final binary URL formed by prefixing the capture from `mDlHtml`. -/
def mFinUrl : String := "https://www.apkmirror.com/apk/dl/file?key=1"

/-- A fully successful apkmirror world (no content-disposition header). -/
def okMWorld : World :=
  ⟨fun url =>
    if url == Apkmirror.searchUrl "com.example.app" then .ok ⟨200, [], mSearchHtml⟩
    else if url == mAppUrl then .ok ⟨200, [], mAppHtml⟩
    else if url == mVerPageUrl then .ok ⟨200, [], mVerHtml⟩
    else if url == mDpUrl then .ok ⟨200, [], mDlHtml⟩
    else if url == mFinUrl then .ok ⟨200, [], "APKBYTES"⟩
    else .error "unexpected URL",
   fun _ => none⟩

/-- Like `okMWorld`, but the binary response names `../evil.apk` in its
content-disposition header. -/
def evilMWorld : World :=
  ⟨fun url =>
    if url == Apkmirror.searchUrl "com.example.app" then .ok ⟨200, [], mSearchHtml⟩
    else if url == mAppUrl then .ok ⟨200, [], mAppHtml⟩
    else if url == mVerPageUrl then .ok ⟨200, [], mVerHtml⟩
    else if url == mDpUrl then .ok ⟨200, [], mDlHtml⟩
    else if url == mFinUrl then
      .ok ⟨200, [("content-disposition", "attachment; filename=\"../evil.apk\"")], "APKBYTES"⟩
    else .error "unexpected URL",
   fun _ => none⟩

/-- Download page whose `Download APK` link is already absolute. -/
def mDlHtmlAbs : String := "<a href=\"https://cdn.example.com/a.apk\">Download APK</a>"

/-- A world whose download page offers an absolute final link; the chain
then fetches the malformed concatenation and fails. -/
def absMWorld : World :=
  ⟨fun url =>
    if url == Apkmirror.searchUrl "com.example.app" then .ok ⟨200, [], mSearchHtml⟩
    else if url == mAppUrl then .ok ⟨200, [], mAppHtml⟩
    else if url == mVerPageUrl then .ok ⟨200, [], mVerHtml⟩
    else if url == mDpUrl then .ok ⟨200, [], mDlHtmlAbs⟩
    else .error "no route to host",
   fun _ => none⟩

/-- Version-search page that mentions version 2.0 on a line without the
`downloadButton` marker. -/
def mVerSearchHtml : String :=
  "<p>Version 2.0 is mentioned here without the button</p>"

/-- A world for a version-specific request whose version search finds no
line carrying both the version and the download affordance. -/
def noVerMWorld : World :=
  ⟨fun url =>
    if url == Apkmirror.searchUrl "com.example.app" then .ok ⟨200, [], mSearchHtml⟩
    else if url == mAppUrl ++ "/?q=2.0" then .ok ⟨200, [], mVerSearchHtml⟩
    else .error "unexpected URL",
   fun _ => none⟩

/-- A world in which every request gets a 404 search response. -/
def all404World : World := ⟨fun _ => .ok ⟨404, [], ""⟩, fun _ => none⟩

/-- Combo search page with one line containing the identifier and an app
link. -/
def cSearchHtml : String := "<a href=\"/genre/com.example.app/latest\">x</a>"

/-- Combo app page with a `downloadButton` link (relative). -/
def cAppHtml : String := "<a class=\"downloadButton\" href=\"/download/com.example.app\">"

/-- Combo download page with an absolute final `.apk` link. -/
def cDlHtml : String := "<a href=\"https://dl.apkcombo.com/file.apk?k=2\">get</a>"

/-- A fully successful apkcombo world (no content-disposition header). -/
def okCWorld : World :=
  ⟨fun url =>
    if url == Apkcombo.searchUrl "com.example.app" then .ok ⟨200, [], cSearchHtml⟩
    else if url == "https://apkcombo.com/genre/com.example.app/latest" then .ok ⟨200, [], cAppHtml⟩
    else if url == "https://apkcombo.com/download/com.example.app" then .ok ⟨200, [], cDlHtml⟩
    else if url == "https://dl.apkcombo.com/file.apk?k=2" then .ok ⟨200, [], "COMBOBYTES"⟩
    else .error "unexpected URL",
   fun _ => none⟩

/-- A search page whose first line satisfying apkmirror's line filter lacks
any matching link, while a later filtered line has one. -/
def c4Html : String :=
  "widget_appRow com.example.app has no link here\n<a class=\"widget_appRow\" href=\"https://www.apkmirror.com/apk/x/com.example.app/\">y</a>"

/-- The second filtered line of `c4Html`. -/
def c4Line2 : String :=
  "<a class=\"widget_appRow\" href=\"https://www.apkmirror.com/apk/x/com.example.app/\">y</a>"

/-- An app page with two identical version markers, each followed by its
own release date. -/
def c8Html : String :=
  "<div class=\"infoSlide-value\">1.0</div>\n<p class=\"datetime_utc\">January 1, 2020</p>\n<div class=\"infoSlide-value\">1.0</div>\n<p class=\"datetime_utc\">February 2, 2020</p>"

/-- An app page with one version marker and no date anywhere. -/
def c8HtmlNoDate : String := "<div class=\"infoSlide-value\">3.0</div>"

deriving instance DecidableEq for Except




/-- The apkcombo extraction shape over a list of lines: scan exactly the
lines satisfying the filter and return the first capture among them
(`lines().filter(..).find_map(|line| re.captures(line)..)`). -/
def scanFiltered (ps : List Rx) (filt : String → Bool) (lines : List String) : Option String :=
  (lines.filter filt).findSome? (fun line => capGroup ps line 1)

/-- The scan `scanFiltered` over the lines of a page. -/
def filterScanExtract (ps : List Rx) (filt : String → Bool) (html : String) : Option String :=
  scanFiltered ps filt (rustLines html)

/-- The apkmirror extraction shape over a list of lines: apply the pattern
only to the first line satisfying the filter
(`lines().find(..).and_then(|line| re.captures(line)..)`). -/
def firstFiltered (ps : List Rx) (filt : String → Bool) (lines : List String) : Option String :=
  (lines.find? filt).bind (fun line => capGroup ps line 1)

/-- The scan `firstFiltered` over the lines of a page. -/
def firstFilteredExtract (ps : List Rx) (filt : String → Bool) (html : String) : Option String :=
  firstFiltered ps filt (rustLines html)

/-! ## Shape lemmas for the resolution chains -/

theorem mirror_stage5_ok (w : World) (a : String) (v : Option String)
    (d u : String) (tr : List String) (fn : String)
    (h : (Apkmirror.stage5Download w a v d u tr).result = .ok fn) :
    ∃ r : HttpResponse, w.net u = .ok r ∧ r.isSuccess = true ∧
      fn = Apkmirror.resolveFilename r a v ∧
      (Apkmirror.stage5Download w a v d u tr).writes = [(pathJoin d fn, r.body)] := by
  unfold Apkmirror.stage5Download at h ⊢
  split at h
  next e heq => simp at h
  next r heq =>
    rw [heq]
    split at h
    next hs =>
      split at h
      next e hf => simp at h
      next hf =>
        simp at h
        exact ⟨r, rfl, hs, h.symm, by simp [h, hs, hf]⟩
    next hs => simp at h

theorem mirror_stage4_ok (w : World) (a : String) (v : Option String)
    (d u : String) (tr : List String) (fn : String)
    (h : (Apkmirror.stage4DownloadPage w a v d u tr).result = .ok fn) :
    ∃ (r : HttpResponse) (p : String), w.net u = .ok r ∧ r.isSuccess = true ∧
      capGroup Apkmirror.downloadUrlRe r.body 1 = some p ∧
      Apkmirror.stage4DownloadPage w a v d u tr =
        Apkmirror.stage5Download w a v d ("https://www.apkmirror.com" ++ p) (tr ++ [u]) := by
  unfold Apkmirror.stage4DownloadPage at h ⊢
  split at h
  next e heq => simp at h
  next r heq =>
    rw [heq]
    split at h
    next hs =>
      split at h
      next hc => simp at h
      next p hc => exact ⟨r, p, rfl, hs, hc, by simp [hs, hc]⟩
    next hs => simp at h

theorem mirror_stage3_ok (w : World) (a : String) (v : Option String)
    (d u : String) (tr : List String) (fn : String)
    (h : (Apkmirror.stage3VersionPage w a v d u tr).result = .ok fn) :
    ∃ (r : HttpResponse) (p : String), w.net u = .ok r ∧ r.isSuccess = true ∧
      capGroup Apkmirror.downloadPageRe r.body 1 = some p ∧
      Apkmirror.stage3VersionPage w a v d u tr =
        Apkmirror.stage4DownloadPage w a v d ("https://www.apkmirror.com" ++ p) (tr ++ [u]) := by
  unfold Apkmirror.stage3VersionPage at h ⊢
  split at h
  next e heq => simp at h
  next r heq =>
    rw [heq]
    split at h
    next hs =>
      split at h
      next hc => simp at h
      next p hc => exact ⟨r, p, rfl, hs, hc, by simp [hs, hc]⟩
    next hs => simp at h

theorem mirror_stage5_fetched (w : World) (a : String) (v : Option String)
    (d u : String) (tr : List String) :
    (Apkmirror.stage5Download w a v d u tr).fetched = tr ++ [u] := by
  unfold Apkmirror.stage5Download
  repeat' split
  all_goals rfl

theorem mirror_locate_len (w : World) (a : String) (v : Option String) (au : String) :
    (Apkmirror.locateVersionPage w a v au).2.length = 1 := by
  unfold Apkmirror.locateVersionPage
  cases v
  all_goals repeat' split
  all_goals rfl

theorem mirror_da_ok (w : World) (a : String) (v : Option String) (d fn : String)
    (h : (Apkmirror.download_app w a v d).result = .ok fn) :
    ∃ (u5 : String) (r5 : HttpResponse), w.net u5 = .ok r5 ∧ r5.isSuccess = true ∧
      fn = Apkmirror.resolveFilename r5 a v ∧
      (Apkmirror.download_app w a v d).writes = [(pathJoin d fn, r5.body)] ∧
      (Apkmirror.download_app w a v d).fetched.length = 5 := by
  unfold Apkmirror.download_app at h ⊢
  split at h
  next e heq => simp at h
  next r1 heq =>
    split at h
    next hs =>
      split at h
      next hf => simp at h
      next au hf =>
        split at h
        next e us hl => simp at h
        next vp us hl =>
          obtain ⟨r3, p3, hn3, hs3, hc3, he3⟩ := mirror_stage3_ok w a v d vp _ fn h
          rw [he3] at h
          obtain ⟨r4, p4, hn4, hs4, hc4, he4⟩ := mirror_stage4_ok w a v d _ _ fn h
          rw [he4] at h
          obtain ⟨r5, hn5, hs5, hfn, hw⟩ := mirror_stage5_ok w a v d _ _ fn h
          have hu : us.length = 1 := by
            have hll := mirror_locate_len w a v au
            rw [hl] at hll
            exact hll
          refine ⟨_, r5, hn5, hs5, hfn, ?_, ?_⟩
          · rw [if_pos hs, he3, he4]
            exact hw
          · rw [if_pos hs, he3, he4, mirror_stage5_fetched]
            simp [hu]
    next hs => simp at h

theorem combo_stage4_fetched (w : World) (a d u : String) (tr : List String) :
    (Apkcombo.stage4Download w a d u tr).fetched = tr ++ [u] := by
  unfold Apkcombo.stage4Download
  repeat' split
  all_goals rfl

theorem combo_stage4_ok (w : World) (a d u : String) (tr : List String) (fn : String)
    (h : (Apkcombo.stage4Download w a d u tr).result = .ok fn) :
    ∃ r : HttpResponse, w.net u = .ok r ∧ r.isSuccess = true ∧
      fn = Apkcombo.resolveFilename r a ∧
      (Apkcombo.stage4Download w a d u tr).writes = [(pathJoin d fn, r.body)] := by
  unfold Apkcombo.stage4Download at h ⊢
  split at h
  next e heq => simp at h
  next r heq =>
    rw [heq]
    split at h
    next hs =>
      split at h
      next e hf => simp at h
      next hf =>
        simp at h
        exact ⟨r, rfl, hs, h.symm, by simp [h, hs, hf]⟩
    next hs => simp at h

theorem combo_stage3_ok (w : World) (a d u : String) (tr : List String) (fn : String)
    (h : (Apkcombo.stage3DownloadPage w a d u tr).result = .ok fn) :
    ∃ (r : HttpResponse) (c : String), w.net u = .ok r ∧ r.isSuccess = true ∧
      capGroup Apkcombo.finalUrlRe r.body 1 = some c ∧
      Apkcombo.stage3DownloadPage w a d u tr =
        Apkcombo.stage4Download w a d c (tr ++ [u]) := by
  unfold Apkcombo.stage3DownloadPage at h ⊢
  split at h
  next e heq => simp at h
  next r heq =>
    rw [heq]
    split at h
    next hs =>
      split at h
      next hc => simp at h
      next c hc => exact ⟨r, c, rfl, hs, hc, by simp [hs, hc]⟩
    next hs => simp at h

theorem combo_stage2_ok (w : World) (a d u : String) (tr : List String) (fn : String)
    (h : (Apkcombo.stage2AppPage w a d u tr).result = .ok fn) :
    ∃ (r : HttpResponse) (c : String), w.net u = .ok r ∧ r.isSuccess = true ∧
      capGroup Apkcombo.downloadUrlRe r.body 1 = some c ∧
      Apkcombo.stage2AppPage w a d u tr =
        Apkcombo.stage3DownloadPage w a d (Apkcombo.absolutize c) (tr ++ [u]) := by
  unfold Apkcombo.stage2AppPage at h ⊢
  split at h
  next e heq => simp at h
  next r heq =>
    rw [heq]
    split at h
    next hs =>
      split at h
      next hc => simp at h
      next c hc => exact ⟨r, c, rfl, hs, hc, by simp [hs, hc]⟩
    next hs => simp at h

theorem combo_da_ok (w : World) (a d fn : String)
    (h : (Apkcombo.download_app w a d).result = .ok fn) :
    ∃ (u4 : String) (r4 : HttpResponse), w.net u4 = .ok r4 ∧ r4.isSuccess = true ∧
      fn = Apkcombo.resolveFilename r4 a ∧
      (Apkcombo.download_app w a d).writes = [(pathJoin d fn, r4.body)] ∧
      (Apkcombo.download_app w a d).fetched.length = 4 := by
  unfold Apkcombo.download_app at h ⊢
  split at h
  next e heq => simp at h
  next r1 heq =>
    split at h
    next hs =>
      split at h
      next hf => simp at h
      next au hf =>
        obtain ⟨r2, c2, hn2, hs2, hc2, he2⟩ := combo_stage2_ok w a d _ _ fn h
        rw [he2] at h
        obtain ⟨r3, c3, hn3, hs3, hc3, he3⟩ := combo_stage3_ok w a d _ _ fn h
        rw [he3] at h
        obtain ⟨r4, hn4, hs4, hfn, hw⟩ := combo_stage4_ok w a d _ _ fn h
        refine ⟨_, r4, hn4, hs4, hfn, ?_, ?_⟩
        · rw [if_pos hs, he2, he3]
          exact hw
        · rw [if_pos hs, he2, he3, combo_stage4_fetched]
          simp
    next hs => simp at h

/-! ## The claims -/

/-- C1: a version-specific request whose version-location stage finds no
line carrying both the version string and the `downloadButton` marker fails
with "Version {v} not found for {id}", fetching nothing beyond the version
search — in particular the latest-version path is never taken; and
apkcombo's per-request task, which downloads the latest version for any
versioned request, announces that fallback with a printed warning rather
than doing it silently. -/
theorem claim_C1 :
    (∀ (w : World) (app_id version_str output_path : String)
       (r1 r2 : HttpResponse) (app_url : String),
       w.net (Apkmirror.searchUrl app_id) = .ok r1 →
       r1.isSuccess = true →
       Apkmirror.findAppUrl app_id r1.body = some app_url →
       w.net (app_url ++ "/?q=" ++ version_str) = .ok r2 →
       r2.isSuccess = true →
       (∀ line ∈ rustLines r2.body,
          ¬(containsSub version_str line = true ∧ containsSub "downloadButton" line = true)) →
       Apkmirror.download_app w app_id (some version_str) output_path =
         ⟨.error ("Version " ++ version_str ++ " not found for " ++ app_id),
          [Apkmirror.searchUrl app_id, app_url ++ "/?q=" ++ version_str], []⟩) ∧
    (∀ (w : World) (output_path app_id v : String),
       (Apkcombo.processOne w output_path (app_id, some v)).1 =
         ["Warning: APKCombo does not support downloading specific versions. Will download the latest version for " ++ app_id]) := by
  constructor
  · intro w app_id version_str output_path r1 r2 app_url h1 h1s h1f h2 h2s h2f
    have hfv : Apkmirror.findVersionUrl version_str r2.body = none := by
      unfold Apkmirror.findVersionUrl
      have hfind : (rustLines r2.body).find?
          (fun line => containsSub version_str line && containsSub "downloadButton" line) = none := by
        rw [List.find?_eq_none]
        intro line hl
        have hnl := h2f line hl
        simp only [Bool.and_eq_true]
        intro hcontra
        exact hnl hcontra
      rw [hfind]
      rfl
    have hloc : Apkmirror.locateVersionPage w app_id (some version_str) app_url =
        (.error ("Version " ++ version_str ++ " not found for " ++ app_id),
         [app_url ++ "/?q=" ++ version_str]) := by
      unfold Apkmirror.locateVersionPage
      dsimp only
      rw [h2]
      dsimp only
      rw [if_pos h2s, hfv]
    unfold Apkmirror.download_app
    rw [h1]
    dsimp only
    rw [if_pos h1s, h1f]
    dsimp only
    rw [hloc]
  · intro w output_path app_id v
    unfold Apkcombo.processOne
    dsimp only
    split <;> rfl

/-- Witness for C1 at a concrete world: the search succeeds, the version
search page mentions "2.0" only on a line without `downloadButton`, and the
outcome is exactly the version-not-found failure after two fetches. -/
theorem claim_C1_witness :
    Apkmirror.download_app noVerMWorld "com.example.app" (some "2.0") "out" =
      ⟨.error "Version 2.0 not found for com.example.app",
       [Apkmirror.searchUrl "com.example.app", mAppUrl ++ "/?q=2.0"], []⟩ :=
  claim_C1.1 noVerMWorld "com.example.app" "2.0" "out"
    ⟨200, [], mSearchHtml⟩ ⟨200, [], mVerSearchHtml⟩ mAppUrl
    (by rfl) (by rfl) (by decide) (by rfl) (by rfl) (by decide)

/-- C2: each resolution chain fails at exactly the stage whose HTTP
response is non-2xx or whose extraction finds no match, returning that
stage's own error message with the fetch trace ending at that stage's URL —
no later stage is fetched — and a chain whose result is `ok` fetched all of
its stages (five for apkmirror, four for apkcombo). -/
theorem claim_C2 :
    (∀ (w : World) (a : String) (v : Option String) (d : String) (r : HttpResponse),
       w.net (Apkmirror.searchUrl a) = .ok r → r.isSuccess = false →
       Apkmirror.download_app w a v d =
         ⟨.error ("Failed to search for app: HTTP " ++ statusText r.status),
          [Apkmirror.searchUrl a], []⟩) ∧
    (∀ (w : World) (a : String) (v : Option String) (d : String) (r : HttpResponse),
       w.net (Apkmirror.searchUrl a) = .ok r → r.isSuccess = true →
       Apkmirror.findAppUrl a r.body = none →
       Apkmirror.download_app w a v d =
         ⟨.error ("App " ++ a ++ " not found on APKMirror"), [Apkmirror.searchUrl a], []⟩) ∧
    (∀ (w : World) (a vs au : String) (r : HttpResponse),
       w.net (au ++ "/?q=" ++ vs) = .ok r → r.isSuccess = false →
       Apkmirror.locateVersionPage w a (some vs) au =
         (.error ("Failed to search for version: HTTP " ++ statusText r.status),
          [au ++ "/?q=" ++ vs])) ∧
    (∀ (w : World) (a vs au : String) (r : HttpResponse),
       w.net (au ++ "/?q=" ++ vs) = .ok r → r.isSuccess = true →
       Apkmirror.findVersionUrl vs r.body = none →
       Apkmirror.locateVersionPage w a (some vs) au =
         (.error ("Version " ++ vs ++ " not found for " ++ a), [au ++ "/?q=" ++ vs])) ∧
    (∀ (w : World) (a au : String) (r : HttpResponse),
       w.net au = .ok r → r.isSuccess = false →
       Apkmirror.locateVersionPage w a none au =
         (.error ("Failed to access app page: HTTP " ++ statusText r.status), [au])) ∧
    (∀ (w : World) (a au : String) (r : HttpResponse),
       w.net au = .ok r → r.isSuccess = true →
       Apkmirror.findLatestUrl r.body = none →
       Apkmirror.locateVersionPage w a none au =
         (.error ("Latest version link not found for " ++ a), [au])) ∧
    (∀ (w : World) (a : String) (v : Option String) (d : String) (r1 : HttpResponse)
       (au e : String) (us : List String),
       w.net (Apkmirror.searchUrl a) = .ok r1 → r1.isSuccess = true →
       Apkmirror.findAppUrl a r1.body = some au →
       Apkmirror.locateVersionPage w a v au = (.error e, us) →
       Apkmirror.download_app w a v d = ⟨.error e, Apkmirror.searchUrl a :: us, []⟩) ∧
    (∀ (w : World) (a : String) (v : Option String) (d : String) (r1 : HttpResponse)
       (au vp : String) (us : List String),
       w.net (Apkmirror.searchUrl a) = .ok r1 → r1.isSuccess = true →
       Apkmirror.findAppUrl a r1.body = some au →
       Apkmirror.locateVersionPage w a v au = (.ok vp, us) →
       Apkmirror.download_app w a v d =
         Apkmirror.stage3VersionPage w a v d vp (Apkmirror.searchUrl a :: us)) ∧
    (∀ (w : World) (a : String) (v : Option String) (d u : String) (tr : List String)
       (r : HttpResponse),
       w.net u = .ok r → r.isSuccess = false →
       Apkmirror.stage3VersionPage w a v d u tr =
         ⟨.error ("Failed to access version page: HTTP " ++ statusText r.status),
          tr ++ [u], []⟩) ∧
    (∀ (w : World) (a : String) (v : Option String) (d u : String) (tr : List String)
       (r : HttpResponse),
       w.net u = .ok r → r.isSuccess = true →
       capGroup Apkmirror.downloadPageRe r.body 1 = none →
       Apkmirror.stage3VersionPage w a v d u tr =
         ⟨.error ("Download page link not found for " ++ a), tr ++ [u], []⟩) ∧
    (∀ (w : World) (a : String) (v : Option String) (d u : String) (tr : List String)
       (r : HttpResponse),
       w.net u = .ok r → r.isSuccess = false →
       Apkmirror.stage4DownloadPage w a v d u tr =
         ⟨.error ("Failed to access download page: HTTP " ++ statusText r.status),
          tr ++ [u], []⟩) ∧
    (∀ (w : World) (a : String) (v : Option String) (d u : String) (tr : List String)
       (r : HttpResponse),
       w.net u = .ok r → r.isSuccess = true →
       capGroup Apkmirror.downloadUrlRe r.body 1 = none →
       Apkmirror.stage4DownloadPage w a v d u tr =
         ⟨.error ("Final download link not found for " ++ a), tr ++ [u], []⟩) ∧
    (∀ (w : World) (a : String) (v : Option String) (d u : String) (tr : List String)
       (r : HttpResponse),
       w.net u = .ok r → r.isSuccess = false →
       Apkmirror.stage5Download w a v d u tr =
         ⟨.error ("Failed to download APK: HTTP " ++ statusText r.status), tr ++ [u], []⟩) ∧
    (∀ (w : World) (a : String) (v : Option String) (d fn : String),
       (Apkmirror.download_app w a v d).result = .ok fn →
       (Apkmirror.download_app w a v d).fetched.length = 5) ∧
    (∀ (w : World) (a d : String) (r : HttpResponse),
       w.net (Apkcombo.searchUrl a) = .ok r → r.isSuccess = false →
       Apkcombo.download_app w a d =
         ⟨.error ("Failed to search for app: HTTP " ++ statusText r.status),
          [Apkcombo.searchUrl a], []⟩) ∧
    (∀ (w : World) (a d : String) (r : HttpResponse),
       w.net (Apkcombo.searchUrl a) = .ok r → r.isSuccess = true →
       Apkcombo.findAppUrl a r.body = none →
       Apkcombo.download_app w a d =
         ⟨.error ("App " ++ a ++ " not found on APKCombo"), [Apkcombo.searchUrl a], []⟩) ∧
    (∀ (w : World) (a d : String) (r : HttpResponse) (au : String),
       w.net (Apkcombo.searchUrl a) = .ok r → r.isSuccess = true →
       Apkcombo.findAppUrl a r.body = some au →
       Apkcombo.download_app w a d =
         Apkcombo.stage2AppPage w a d ("https://apkcombo.com" ++ au) [Apkcombo.searchUrl a]) ∧
    (∀ (w : World) (a d u : String) (tr : List String) (r : HttpResponse),
       w.net u = .ok r → r.isSuccess = false →
       Apkcombo.stage2AppPage w a d u tr =
         ⟨.error ("Failed to access app page: HTTP " ++ statusText r.status), tr ++ [u], []⟩) ∧
    (∀ (w : World) (a d u : String) (tr : List String) (r : HttpResponse),
       w.net u = .ok r → r.isSuccess = true →
       capGroup Apkcombo.downloadUrlRe r.body 1 = none →
       Apkcombo.stage2AppPage w a d u tr =
         ⟨.error ("Download link not found for " ++ a), tr ++ [u], []⟩) ∧
    (∀ (w : World) (a d u : String) (tr : List String) (r : HttpResponse),
       w.net u = .ok r → r.isSuccess = false →
       Apkcombo.stage3DownloadPage w a d u tr =
         ⟨.error ("Failed to access download page: HTTP " ++ statusText r.status),
          tr ++ [u], []⟩) ∧
    (∀ (w : World) (a d u : String) (tr : List String) (r : HttpResponse),
       w.net u = .ok r → r.isSuccess = true →
       capGroup Apkcombo.finalUrlRe r.body 1 = none →
       Apkcombo.stage3DownloadPage w a d u tr =
         ⟨.error ("Final APK download link not found for " ++ a), tr ++ [u], []⟩) ∧
    (∀ (w : World) (a d u : String) (tr : List String) (r : HttpResponse),
       w.net u = .ok r → r.isSuccess = false →
       Apkcombo.stage4Download w a d u tr =
         ⟨.error ("Failed to download APK: HTTP " ++ statusText r.status), tr ++ [u], []⟩) ∧
    (∀ (w : World) (a d fn : String),
       (Apkcombo.download_app w a d).result = .ok fn →
       (Apkcombo.download_app w a d).fetched.length = 4) := by
  refine ⟨?_, ?_, ?_, ?_, ?_, ?_, ?_, ?_, ?_, ?_, ?_, ?_, ?_, ?_, ?_, ?_, ?_, ?_, ?_, ?_, ?_, ?_, ?_⟩
  · intro w a v d r hn hs
    unfold Apkmirror.download_app
    rw [hn]
    dsimp only
    rw [if_neg (by simp [hs])]
  · intro w a v d r hn hs hf
    unfold Apkmirror.download_app
    rw [hn]
    dsimp only
    rw [if_pos hs, hf]
  · intro w a vs au r hn hs
    unfold Apkmirror.locateVersionPage
    dsimp only
    rw [hn]
    dsimp only
    rw [if_neg (by simp [hs])]
  · intro w a vs au r hn hs hf
    unfold Apkmirror.locateVersionPage
    dsimp only
    rw [hn]
    dsimp only
    rw [if_pos hs, hf]
  · intro w a au r hn hs
    unfold Apkmirror.locateVersionPage
    dsimp only
    rw [hn]
    dsimp only
    rw [if_neg (by simp [hs])]
  · intro w a au r hn hs hf
    unfold Apkmirror.locateVersionPage
    dsimp only
    rw [hn]
    dsimp only
    rw [if_pos hs, hf]
  · intro w a v d r1 au e us h1 h1s h1f hl
    unfold Apkmirror.download_app
    rw [h1]
    dsimp only
    rw [if_pos h1s, h1f]
    dsimp only
    rw [hl]
  · intro w a v d r1 au vp us h1 h1s h1f hl
    unfold Apkmirror.download_app
    rw [h1]
    dsimp only
    rw [if_pos h1s, h1f]
    dsimp only
    rw [hl]
  · intro w a v d u tr r hn hs
    unfold Apkmirror.stage3VersionPage
    rw [hn]
    dsimp only
    rw [if_neg (by simp [hs])]
  · intro w a v d u tr r hn hs hc
    unfold Apkmirror.stage3VersionPage
    rw [hn]
    dsimp only
    rw [if_pos hs, hc]
  · intro w a v d u tr r hn hs
    unfold Apkmirror.stage4DownloadPage
    rw [hn]
    dsimp only
    rw [if_neg (by simp [hs])]
  · intro w a v d u tr r hn hs hc
    unfold Apkmirror.stage4DownloadPage
    rw [hn]
    dsimp only
    rw [if_pos hs, hc]
  · intro w a v d u tr r hn hs
    unfold Apkmirror.stage5Download
    rw [hn]
    dsimp only
    rw [if_neg (by simp [hs])]
  · intro w a v d fn h
    obtain ⟨u5, r5, _, _, _, _, hlen⟩ := mirror_da_ok w a v d fn h
    exact hlen
  · intro w a d r hn hs
    unfold Apkcombo.download_app
    rw [hn]
    dsimp only
    rw [if_neg (by simp [hs])]
  · intro w a d r hn hs hf
    unfold Apkcombo.download_app
    rw [hn]
    dsimp only
    rw [if_pos hs, hf]
  · intro w a d r au hn hs hf
    unfold Apkcombo.download_app
    rw [hn]
    dsimp only
    rw [if_pos hs, hf]
  · intro w a d u tr r hn hs
    unfold Apkcombo.stage2AppPage
    rw [hn]
    dsimp only
    rw [if_neg (by simp [hs])]
  · intro w a d u tr r hn hs hc
    unfold Apkcombo.stage2AppPage
    rw [hn]
    dsimp only
    rw [if_pos hs, hc]
  · intro w a d u tr r hn hs
    unfold Apkcombo.stage3DownloadPage
    rw [hn]
    dsimp only
    rw [if_neg (by simp [hs])]
  · intro w a d u tr r hn hs hc
    unfold Apkcombo.stage3DownloadPage
    rw [hn]
    dsimp only
    rw [if_pos hs, hc]
  · intro w a d u tr r hn hs
    unfold Apkcombo.stage4Download
    rw [hn]
    dsimp only
    rw [if_neg (by simp [hs])]
  · intro w a d fn h
    obtain ⟨u4, r4, _, _, _, _, hlen⟩ := combo_da_ok w a d fn h
    exact hlen

/-- Witness for C2. -/
theorem claim_C2_witness :
    (Apkmirror.download_app all404World "x" none "out" =
      ⟨.error "Failed to search for app: HTTP 404", [Apkmirror.searchUrl "x"], []⟩) ∧
    (Apkmirror.download_app okMWorld "com.example.app" none "out").fetched.length = 5 :=
  ⟨claim_C2.1 all404World "x" none "out" ⟨404, [], ""⟩ (by rfl) (by rfl),
   (claim_C2.2.2.2.2.2.2.2.2.2.2.2.2.2.1) okMWorld "com.example.app" none "out"
     "com.example.app.apk" (by decide)⟩

/-- C3 counterexample: an apkcombo download completed for a request carrying
version "2.0", with no content-disposition header on the binary response, is
saved as `com.example.app.apk` — not `com.example.app-2.0.apk` as the claim's
precedence (2) requires. -/
theorem claim_C3_counterexample :
    (Apkcombo.processOne okCWorld "out" ("com.example.app", some "2.0")).2 =
      .saved "com.example.app.apk" ∧
    headerGet ⟨200, [], "COMBOBYTES"⟩ "content-disposition" = none ∧
    "com.example.app.apk" ≠ "com.example.app-2.0.apk" :=
  ⟨by decide, by decide, by decide⟩

/-- C3 amended: precedence (1) the content-disposition filename, quoted
capture preferred over the bare one; (2) else `{id}-{version}.apk` when the
download step received a version, which only apkmirror's does — apkcombo's
orchestrator drops the requested version, so its synthesized name is always
`{id}.apk`; (3) else `{id}.apk`.  Every completed download's filename comes
from the corresponding resolver applied to the binary response. -/
theorem claim_C3 :
    (∀ (r : HttpResponse) (a : String) (v : Option String) (f : String),
       (headerGet r "content-disposition").bind cdFilename = some f →
       Apkmirror.resolveFilename r a v = f) ∧
    (∀ (r : HttpResponse) (a f : String),
       (headerGet r "content-disposition").bind cdFilename = some f →
       Apkcombo.resolveFilename r a = f) ∧
    (∀ (r : HttpResponse) (a v : String),
       (headerGet r "content-disposition").bind cdFilename = none →
       Apkmirror.resolveFilename r a (some v) = a ++ "-" ++ v ++ ".apk") ∧
    (∀ (r : HttpResponse) (a : String),
       (headerGet r "content-disposition").bind cdFilename = none →
       Apkmirror.resolveFilename r a none = a ++ ".apk") ∧
    (∀ (r : HttpResponse) (a : String),
       (headerGet r "content-disposition").bind cdFilename = none →
       Apkcombo.resolveFilename r a = a ++ ".apk") ∧
    (∀ (s f : String), cdFilename s = some f →
       ∃ marks, rxCaptures filenameRe s = some marks ∧
         (∀ cs, rxGroup s.data marks 1 = some cs → f = String.mk cs) ∧
         (rxGroup s.data marks 1 = none →
           ∀ cs, rxGroup s.data marks 2 = some cs → f = String.mk cs)) ∧
    (cdFilename "attachment; filename=\"a b.apk\"" = some "a b.apk") ∧
    (cdFilename "attachment; filename=bare.apk; size=3" = some "bare.apk") ∧
    (∀ (w : World) (a : String) (v : Option String) (d fn : String),
       (Apkmirror.download_app w a v d).result = .ok fn →
       ∃ (u : String) (r : HttpResponse), w.net u = .ok r ∧
         fn = Apkmirror.resolveFilename r a v) ∧
    (∀ (w : World) (a : String) (ver : Option String) (d fn : String),
       (Apkcombo.processOne w d (a, ver)).2 = .saved fn →
       ∃ (u : String) (r : HttpResponse), w.net u = .ok r ∧
         fn = Apkcombo.resolveFilename r a) := by
  refine ⟨?_, ?_, ?_, ?_, ?_, ?_, by decide, by decide, ?_, ?_⟩
  · intro r a v f h
    unfold Apkmirror.resolveFilename
    rw [h]
  · intro r a f h
    unfold Apkcombo.resolveFilename
    rw [h]
  · intro r a v h
    unfold Apkmirror.resolveFilename
    rw [h]
  · intro r a h
    unfold Apkmirror.resolveFilename
    rw [h]
  · intro r a h
    unfold Apkcombo.resolveFilename
    rw [h]
  · intro s f h
    unfold cdFilename at h
    cases hm : rxCaptures filenameRe s with
    | none => rw [hm] at h; simp at h
    | some marks =>
      rw [hm] at h
      simp at h
      refine ⟨marks, rfl, ?_, ?_⟩
      · intro cs hcs
        rw [hcs] at h
        exact h.symm
      · intro h1 cs hcs
        rw [h1, hcs] at h
        exact h.symm
  · intro w a v d fn h
    obtain ⟨u5, r5, hn5, _, hfn, _, _⟩ := mirror_da_ok w a v d fn h
    exact ⟨u5, r5, hn5, hfn⟩
  · intro w a ver d fn h
    unfold Apkcombo.processOne at h
    dsimp only at h
    split at h
    next f hres =>
      simp at h
      obtain ⟨u4, r4, hn4, _, hfn, _, _⟩ := combo_da_ok w a d f hres
      exact ⟨u4, r4, hn4, h ▸ hfn⟩
    next e hres => simp at h

/-- Witness for C3 (amended): with no content-disposition header, apkmirror
synthesizes `{id}-{version}.apk`. -/
theorem claim_C3_witness :
    Apkmirror.resolveFilename ⟨200, [], ""⟩ "app" (some "1.0") = "app-1.0.apk" :=
  claim_C3.2.2.1 ⟨200, [], ""⟩ "app" "1.0" (by rfl)

/-- C4 counterexample: apkmirror applies the pattern only to the *first*
line satisfying the filter — here that line has no matching link, a later
filtered line does, and extraction still reports not found. -/
theorem claim_C4_counterexample :
    c4Line2 ∈ rustLines c4Html ∧
    (containsSub "widget_appRow" c4Line2 && containsSub "com.example.app" c4Line2) = true ∧
    capGroup Apkmirror.appUrlRe c4Line2 1 =
      some "https://www.apkmirror.com/apk/x/com.example.app/" ∧
    Apkmirror.findAppUrl "com.example.app" c4Html = none :=
  ⟨by decide, by decide, by decide, by decide⟩

/-- C4 amended: apkcombo's extraction (`filter` + `find_map`) scans exactly
the filtered lines and returns the first capture in document order, skipping
filtered lines that fail the pattern and reporting not found only when no
filtered line matches; apkmirror's extraction (`find` + `and_then`) instead
applies the pattern only to the first filtered line, so the result is that
line's capture, or not found even when later filtered lines would match. -/
theorem claim_C4 :
    (∀ (a html : String),
       Apkcombo.findAppUrl a html =
         filterScanExtract Apkcombo.appUrlRe (fun l => containsSub a l) html) ∧
    (∀ (a html : String),
       Apkmirror.findAppUrl a html =
         firstFilteredExtract Apkmirror.appUrlRe
           (fun l => containsSub "widget_appRow" l && containsSub a l) html) ∧
    (∀ (ps : List Rx) (filt : String → Bool), scanFiltered ps filt [] = none) ∧
    (∀ (ps : List Rx) (filt : String → Bool) (l : String) (rest : List String),
       filt l = false → scanFiltered ps filt (l :: rest) = scanFiltered ps filt rest) ∧
    (∀ (ps : List Rx) (filt : String → Bool) (l : String) (rest : List String),
       filt l = true → capGroup ps l 1 = none →
       scanFiltered ps filt (l :: rest) = scanFiltered ps filt rest) ∧
    (∀ (ps : List Rx) (filt : String → Bool) (l : String) (rest : List String) (c : String),
       filt l = true → capGroup ps l 1 = some c →
       scanFiltered ps filt (l :: rest) = some c) ∧
    (∀ (ps : List Rx) (filt : String → Bool) (lines : List String),
       scanFiltered ps filt lines = none ↔
         ∀ l ∈ lines, filt l = true → capGroup ps l 1 = none) ∧
    (∀ (ps : List Rx) (filt : String → Bool) (l : String) (rest : List String),
       filt l = false → firstFiltered ps filt (l :: rest) = firstFiltered ps filt rest) ∧
    (∀ (ps : List Rx) (filt : String → Bool) (l : String) (rest : List String),
       filt l = true →
       firstFiltered ps filt (l :: rest) = capGroup ps l 1) := by
  refine ⟨?_, ?_, ?_, ?_, ?_, ?_, ?_, ?_, ?_⟩
  · intro a html
    rfl
  · intro a html
    rfl
  · intro ps filt
    rfl
  · intro ps filt l rest hl
    simp [scanFiltered, List.filter_cons, hl]
  · intro ps filt l rest hl hc
    simp [scanFiltered, List.filter_cons, hl, List.findSome?_cons, hc]
  · intro ps filt l rest c hl hc
    simp [scanFiltered, List.filter_cons, hl, List.findSome?_cons, hc]
  · intro ps filt lines
    constructor
    · intro h l hm hf
      have := List.findSome?_eq_none_iff.mp h l (List.mem_filter.mpr ⟨hm, hf⟩)
      exact this
    · intro h
      unfold scanFiltered
      rw [List.findSome?_eq_none_iff]
      intro l hm
      have hm2 := List.mem_filter.mp hm
      exact h l hm2.1 hm2.2
  · intro ps filt l rest hl
    simp [firstFiltered, List.find?_cons, hl]
  · intro ps filt l rest hl
    simp [firstFiltered, List.find?_cons, hl]

/-- Witness for C4 (amended): apkcombo's extractor skips a filtered line
that fails the pattern and still scans the later filtered line. -/
theorem claim_C4_witness :
    (scanFiltered Apkmirror.appUrlRe
      (fun l => containsSub "widget_appRow" l && containsSub "com.example.app" l)
      ["widget_appRow com.example.app has no link here", c4Line2] =
      scanFiltered Apkmirror.appUrlRe
        (fun l => containsSub "widget_appRow" l && containsSub "com.example.app" l)
        [c4Line2]) ∧
    (firstFiltered Apkmirror.appUrlRe
      (fun l => containsSub "widget_appRow" l && containsSub "com.example.app" l)
      ["widget_appRow com.example.app has no link here", c4Line2] =
      capGroup Apkmirror.appUrlRe "widget_appRow com.example.app has no link here" 1) :=
  ⟨claim_C4.2.2.2.2.1 Apkmirror.appUrlRe
     (fun l => containsSub "widget_appRow" l && containsSub "com.example.app" l)
     "widget_appRow com.example.app has no link here" [c4Line2] (by decide) (by decide),
   (claim_C4.2.2.2.2.2.2.2.2) Apkmirror.appUrlRe
     (fun l => containsSub "widget_appRow" l && containsSub "com.example.app" l)
     "widget_appRow com.example.app has no link here" [c4Line2] (by decide)⟩

/-- C5 counterexample: the download page offers an already-absolute
`Download APK` link; apkmirror still prefixes it with its own origin, and
the chain's final fetch goes to the malformed concatenation. -/
theorem claim_C5_counterexample :
    capGroup Apkmirror.downloadUrlRe mDlHtmlAbs 1 = some "https://cdn.example.com/a.apk" ∧
    strIsPrefixOf "http" "https://cdn.example.com/a.apk" = true ∧
    (Apkmirror.download_app absMWorld "com.example.app" none "out").fetched.getLast? =
      some "https://www.apkmirror.comhttps://cdn.example.com/a.apk" :=
  ⟨by decide, by decide, by decide⟩

/-- C5 amended: apkcombo's app-page stage checks `starts_with("http")` and
never double-prefixes, and its final capture is fetched unchanged; apkmirror
prefixes the captures of its download-page and final stages with
`https://www.apkmirror.com` unconditionally, so an absolute capture at those
stages is prefixed a second time. -/
theorem claim_C5 :
    (∀ u : String, strIsPrefixOf "http" u = true → Apkcombo.absolutize u = u) ∧
    (∀ u : String, strIsPrefixOf "http" u = false →
       Apkcombo.absolutize u = "https://apkcombo.com" ++ u) ∧
    (∀ (w : World) (a d u : String) (tr : List String) (r : HttpResponse) (c : String),
       w.net u = .ok r → r.isSuccess = true →
       capGroup Apkcombo.downloadUrlRe r.body 1 = some c →
       Apkcombo.stage2AppPage w a d u tr =
         Apkcombo.stage3DownloadPage w a d (Apkcombo.absolutize c) (tr ++ [u])) ∧
    (∀ (w : World) (a d u : String) (tr : List String) (r : HttpResponse) (c : String),
       w.net u = .ok r → r.isSuccess = true →
       capGroup Apkcombo.finalUrlRe r.body 1 = some c →
       Apkcombo.stage3DownloadPage w a d u tr =
         Apkcombo.stage4Download w a d c (tr ++ [u])) ∧
    (∀ (w : World) (a : String) (v : Option String) (d u : String) (tr : List String)
       (r : HttpResponse) (p : String),
       w.net u = .ok r → r.isSuccess = true →
       capGroup Apkmirror.downloadPageRe r.body 1 = some p →
       Apkmirror.stage3VersionPage w a v d u tr =
         Apkmirror.stage4DownloadPage w a v d ("https://www.apkmirror.com" ++ p) (tr ++ [u])) ∧
    (∀ (w : World) (a : String) (v : Option String) (d u : String) (tr : List String)
       (r : HttpResponse) (c : String),
       w.net u = .ok r → r.isSuccess = true →
       capGroup Apkmirror.downloadUrlRe r.body 1 = some c →
       Apkmirror.stage4DownloadPage w a v d u tr =
         Apkmirror.stage5Download w a v d ("https://www.apkmirror.com" ++ c) (tr ++ [u])) := by
  refine ⟨?_, ?_, ?_, ?_, ?_, ?_⟩
  · intro u hu
    unfold Apkcombo.absolutize
    rw [if_pos hu]
  · intro u hu
    unfold Apkcombo.absolutize
    rw [if_neg (by simp [hu])]
  · intro w a d u tr r c hn hs hc
    unfold Apkcombo.stage2AppPage
    rw [hn]
    dsimp only
    rw [if_pos hs, hc]
  · intro w a d u tr r c hn hs hc
    unfold Apkcombo.stage3DownloadPage
    rw [hn]
    dsimp only
    rw [if_pos hs, hc]
  · intro w a v d u tr r p hn hs hc
    unfold Apkmirror.stage3VersionPage
    rw [hn]
    dsimp only
    rw [if_pos hs, hc]
  · intro w a v d u tr r c hn hs hc
    unfold Apkmirror.stage4DownloadPage
    rw [hn]
    dsimp only
    rw [if_pos hs, hc]

/-- Witness for C5 (amended): a concrete absolute link is returned unchanged
by apkcombo's absolutization and a concrete relative one is prefixed. -/
theorem claim_C5_witness :
    Apkcombo.absolutize "https://dl.apkcombo.com/file.apk" = "https://dl.apkcombo.com/file.apk" ∧
    Apkcombo.absolutize "/download/x" = "https://apkcombo.com" ++ "/download/x" :=
  ⟨claim_C5.1 "https://dl.apkcombo.com/file.apk" (by decide),
   claim_C5.2.1 "/download/x" (by decide)⟩

/-- C6: the batch produces exactly one outcome per request; each request's
outcome is a function of that request alone, so siblings' failures neither
cancel nor change it (splicing any request into a batch leaves every other
outcome untouched); and a failed chain — transport, HTTP, extraction or
file-system error alike — becomes a reported `failed` outcome rather than
aborting the batch. -/
theorem claim_C6 :
    (∀ (w : World) (app_ids : List (String × Option String)) (p sl : Nat) (d : String),
       (Apkmirror.download_apps w app_ids p sl d).length = app_ids.length) ∧
    (∀ (w : World) (pre post : List (String × Option String))
       (req : String × Option String) (p sl : Nat) (d : String),
       Apkmirror.download_apps w (pre ++ req :: post) p sl d =
         Apkmirror.download_apps w pre p sl d ++
           Apkmirror.processOne w d req :: Apkmirror.download_apps w post p sl d) ∧
    (∀ (w : World) (d a : String) (ver : Option String) (e : String),
       (Apkmirror.download_app w a ver d).result = .error e →
       Apkmirror.processOne w d (a, ver) = .failed e) ∧
    (∀ (w : World) (d a : String) (ver : Option String) (fn : String),
       (Apkmirror.download_app w a ver d).result = .ok fn →
       Apkmirror.processOne w d (a, ver) = .saved fn) ∧
    (∀ (w : World) (app_ids : List (String × Option String)) (p sl : Nat) (d : String),
       (Apkcombo.download_apps w app_ids p sl d).length = app_ids.length) ∧
    (∀ (w : World) (pre post : List (String × Option String))
       (req : String × Option String) (p sl : Nat) (d : String),
       Apkcombo.download_apps w (pre ++ req :: post) p sl d =
         Apkcombo.download_apps w pre p sl d ++
           Apkcombo.processOne w d req :: Apkcombo.download_apps w post p sl d) ∧
    (∀ (w : World) (d a : String) (ver : Option String) (e : String),
       (Apkcombo.download_app w a d).result = .error e →
       (Apkcombo.processOne w d (a, ver)).2 = .failed e) ∧
    (∀ (w : World) (d a : String) (ver : Option String) (fn : String),
       (Apkcombo.download_app w a d).result = .ok fn →
       (Apkcombo.processOne w d (a, ver)).2 = .saved fn) := by
  refine ⟨?_, ?_, ?_, ?_, ?_, ?_, ?_, ?_⟩
  · intro w app_ids p sl d
    simp [Apkmirror.download_apps]
  · intro w pre post req p sl d
    simp [Apkmirror.download_apps]
  · intro w d a ver e h
    unfold Apkmirror.processOne
    dsimp only
    rw [h]
  · intro w d a ver fn h
    unfold Apkmirror.processOne
    dsimp only
    rw [h]
  · intro w app_ids p sl d
    simp [Apkcombo.download_apps]
  · intro w pre post req p sl d
    simp [Apkcombo.download_apps]
  · intro w d a ver e h
    unfold Apkcombo.processOne
    dsimp only
    rw [h]
  · intro w d a ver fn h
    unfold Apkcombo.processOne
    dsimp only
    rw [h]

/-- Witness for C6: a failing request is reported as a `failed` outcome. -/
theorem claim_C6_witness :
    Apkmirror.processOne all404World "out" ("x", none) =
      .failed "Failed to search for app: HTTP 404" :=
  claim_C6.2.2.1 all404World "out" "x" none "Failed to search for app: HTTP 404" (by decide)

/-- C7: in every state the buffered driver can reach, at most `parallel`
tasks are in flight; with `parallel = 1` two concurrently in-flight tasks
cannot exist (any two in-flight indices coincide). -/
theorem claim_C7 :
    (∀ (parallel : Nat) (tasks : List Nat) (s : BatchState),
       BatchReach parallel tasks s → s.active.length ≤ parallel) ∧
    (∀ (tasks : List Nat) (s : BatchState),
       BatchReach 1 tasks s →
       ∀ i j : Nat, i < s.active.length → j < s.active.length → i = j) := by
  have hinv : ∀ (parallel : Nat) (tasks : List Nat) (s : BatchState),
      BatchReach parallel tasks s → s.active.length ≤ parallel := by
    intro parallel tasks s h
    induction h with
    | init => simp
    | step s s' hr hstep ih =>
      cases hstep with
      | start t rest act hlt => simpa using hlt
      | work pre post n pend => simp_all
      | finish pre post pend =>
        simp at ih ⊢
        omega
  constructor
  · exact hinv
  · intro tasks s h i j hi hj
    have hb := hinv 1 tasks s h
    omega

/-- Witness for C7: after starting the first of two tasks under
`parallel = 1`, the in-flight count is within the bound. -/
theorem claim_C7_witness :
    (⟨[2], [2]⟩ : BatchState).active.length ≤ 1 :=
  claim_C7.1 1 [2, 2] ⟨[2], [2]⟩
    (BatchReach.step _ _ BatchReach.init (BatchStep.start 2 [2] [] (by decide)))

/-- C8 counterexample: two identical version markers, each followed by its
own date; the extractor pairs the *second* marker with the *first* marker's
date (the fallback window is anchored at the first document line containing
the version string), and the missing-date default is `"Unknown date"`, not
`"unknown"`. -/
theorem claim_C8_counterexample :
    Apkmirror.extractVersions c8Html =
      [("1.0", "January 1, 2020"), ("1.0", "January 1, 2020")] ∧
    (((rustLines c8Html).drop 2).take 5).findSome?
      (fun l => capGroup Apkmirror.dateRe l 1) = some "February 2, 2020" ∧
    Apkmirror.extractVersions c8HtmlNoDate = [("3.0", "Unknown date")] ∧
    "Unknown date" ≠ "unknown" :=
  ⟨by decide, by decide, by decide, by decide⟩

/-- C8 amended: `list_versions` emits one entry per line whose first
`infoSlide-value` match yields a version, in document order; each entry's
date is the one on the marker's own line when present, otherwise the first
`datetime_utc` capture in the five-line window anchored at the *first line
of the whole page containing the (trimmed) version string* — which
cross-pairs dates when version strings repeat — defaulting to
`"Unknown date"` (not `"unknown"`). -/
theorem claim_C8 :
    (∀ html : String,
       Apkmirror.extractVersions html =
         Apkmirror.versionsLoop (rustLines html) (rustLines html)) ∧
    (∀ (allLines lines : List String),
       (Apkmirror.versionsLoop allLines lines).map Prod.fst =
         lines.filterMap (fun l => (capGroup Apkmirror.versionRe l 1).map rustTrim)) ∧
    (∀ (allLines : List String) (v : String),
       Apkmirror.dateWindow allLines v =
         (allLines.dropWhile (fun l => !containsSub v l)).take 5) ∧
    (∀ (allLines : List String) (l : String) (rest : List String),
       capGroup Apkmirror.versionRe l 1 = none →
       Apkmirror.versionsLoop allLines (l :: rest) = Apkmirror.versionsLoop allLines rest) ∧
    (∀ (allLines : List String) (l : String) (rest : List String) (v0 date : String),
       capGroup Apkmirror.versionRe l 1 = some v0 →
       capGroup Apkmirror.dateRe l 1 = some date →
       Apkmirror.versionsLoop allLines (l :: rest) =
         (rustTrim v0, rustTrim date) :: Apkmirror.versionsLoop allLines rest) ∧
    (∀ (allLines : List String) (l : String) (rest : List String) (v0 date : String),
       capGroup Apkmirror.versionRe l 1 = some v0 →
       capGroup Apkmirror.dateRe l 1 = none →
       (Apkmirror.dateWindow allLines (rustTrim v0)).findSome?
         (fun l2 => capGroup Apkmirror.dateRe l2 1) = some date →
       Apkmirror.versionsLoop allLines (l :: rest) =
         (rustTrim v0, rustTrim date) :: Apkmirror.versionsLoop allLines rest) ∧
    (∀ (allLines : List String) (l : String) (rest : List String) (v0 : String),
       capGroup Apkmirror.versionRe l 1 = some v0 →
       capGroup Apkmirror.dateRe l 1 = none →
       (Apkmirror.dateWindow allLines (rustTrim v0)).findSome?
         (fun l2 => capGroup Apkmirror.dateRe l2 1) = none →
       Apkmirror.versionsLoop allLines (l :: rest) =
         (rustTrim v0, "Unknown date") :: Apkmirror.versionsLoop allLines rest) := by
  refine ⟨?_, ?_, ?_, ?_, ?_, ?_, ?_⟩
  · intro html
    rfl
  · intro allLines lines
    induction lines with
    | nil => rfl
    | cons l rest ih =>
      unfold Apkmirror.versionsLoop
      cases hv : capGroup Apkmirror.versionRe l 1 with
      | none => simp [List.filterMap_cons, hv, ih]
      | some v0 =>
        dsimp only
        split
        · simp [List.filterMap_cons, hv, ih]
        · simp [List.filterMap_cons, hv, ih]
  · intro allLines v
    rfl
  · intro allLines l rest hv
    rw [Apkmirror.versionsLoop.eq_def]
    dsimp only
    rw [hv]
  · intro allLines l rest v0 date hv hd
    rw [Apkmirror.versionsLoop.eq_def]
    dsimp only
    rw [hv]
    dsimp only
    rw [hd]
    rfl
  · intro allLines l rest v0 date hv hd hw
    rw [Apkmirror.versionsLoop.eq_def]
    dsimp only
    rw [hv]
    dsimp only
    rw [hd]
    simp only [Option.orElse]
    rw [hw]
  · intro allLines l rest v0 hv hd hw
    rw [Apkmirror.versionsLoop.eq_def]
    dsimp only
    rw [hv]
    dsimp only
    rw [hd]
    simp only [Option.orElse]
    rw [hw]

/-- Witness for C8 (amended): the marker line's own date is used when
present. -/
theorem claim_C8_witness :
    Apkmirror.versionsLoop []
      ["<div class=\"infoSlide-value\">2.0</div><p class=\"datetime_utc\">March 3, 2021</p>"] =
      [("2.0", "March 3, 2021")] :=
  claim_C8.2.2.2.2.1 []
    "<div class=\"infoSlide-value\">2.0</div><p class=\"datetime_utc\">March 3, 2021</p>" []
    "2.0" "March 3, 2021" (by decide) (by decide)

/-- C9: `File::create` + `write_all` replaces a pre-existing file's contents
wholesale and reports success — the chain never checks for existence and
applies no disambiguating suffix, so of two writers to one filename the last
one's bytes survive; a write touches no other path; and a successful chain
performs exactly one write, to exactly `output_dir.join(filename)`. -/
theorem claim_C9 :
    (∀ (fs : List (String × String)) (p x : String),
       fsRead (fsWrite fs p x) p = some x) ∧
    (∀ (fs : List (String × String)) (p d1 d2 : String),
       fsRead (fsWrite (fsWrite fs p d1) p d2) p = some d2) ∧
    (∀ (fs : List (String × String)) (p q x : String), p ≠ q →
       fsRead (fsWrite fs p x) q = fsRead fs q) ∧
    (∀ (w : World) (a : String) (v : Option String) (d fn : String),
       (Apkmirror.download_app w a v d).result = .ok fn →
       ((Apkmirror.download_app w a v d).writes.map Prod.fst = [pathJoin d fn] ∧
        (Apkmirror.download_app w a v d).writes.length = 1)) ∧
    (∀ (w : World) (a d fn : String),
       (Apkcombo.download_app w a d).result = .ok fn →
       ((Apkcombo.download_app w a d).writes.map Prod.fst = [pathJoin d fn] ∧
        (Apkcombo.download_app w a d).writes.length = 1)) := by
  refine ⟨?_, ?_, ?_, ?_, ?_⟩
  · intro fs p x
    simp [fsRead, fsWrite, List.find?_cons]
  · intro fs p d1 d2
    simp [fsRead, fsWrite, List.find?_cons]
  · intro fs p q x hpq
    have hb : (p == q) = false := beq_eq_false_iff_ne.mpr hpq
    simp [fsRead, fsWrite, List.find?_cons, hb]
  · intro w a v d fn h
    obtain ⟨u5, r5, _, _, _, hw, _⟩ := mirror_da_ok w a v d fn h
    rw [hw]
    exact ⟨rfl, rfl⟩
  · intro w a d fn h
    obtain ⟨u4, r4, _, _, _, hw, _⟩ := combo_da_ok w a d fn h
    rw [hw]
    exact ⟨rfl, rfl⟩

/-- Witness for C9: the successful apkmirror chain writes exactly one file,
at the joined output path. -/
theorem claim_C9_witness :
    (Apkmirror.download_app okMWorld "com.example.app" none "out").writes.map Prod.fst =
      [pathJoin "out" "com.example.app.apk"] ∧
    (Apkmirror.download_app okMWorld "com.example.app" none "out").writes.length = 1 :=
  claim_C9.2.2.2.1 okMWorld "com.example.app" none "out" "com.example.app.apk" (by decide)

/-- C10: the written path is exactly `output_dir.join(resolved filename)`
with the filename used verbatim; `Path::join` keeps `..` components and
lets an absolute filename replace the base, so a content-disposition
filename of `../evil.apk` lands outside the output directory (concretely:
the path normalizes to `evil.apk`, not under `out/`). -/
theorem claim_C10 :
    (∀ (w : World) (a : String) (v : Option String) (d fn : String),
       (Apkmirror.download_app w a v d).result = .ok fn →
       ((Apkmirror.download_app w a v d).writes.map Prod.fst = [pathJoin d fn])) ∧
    (∀ (w : World) (a d fn : String),
       (Apkcombo.download_app w a d).result = .ok fn →
       ((Apkcombo.download_app w a d).writes.map Prod.fst = [pathJoin d fn])) ∧
    cdFilename "attachment; filename=\"../evil.apk\"" = some "../evil.apk" ∧
    (Apkmirror.download_app evilMWorld "com.example.app" none "out").result =
      .ok "../evil.apk" ∧
    (Apkmirror.download_app evilMWorld "com.example.app" none "out").writes =
      [("out/../evil.apk", "APKBYTES")] ∧
    pathJoin "out" "../evil.apk" = "out/../evil.apk" ∧
    normalizePath "out/../evil.apk" = "evil.apk" ∧
    strIsPrefixOf "out/" (normalizePath "out/../evil.apk") = false ∧
    pathJoin "out" "/tmp/evil.apk" = "/tmp/evil.apk" := by
  refine ⟨?_, ?_, by decide, by decide, by decide, by decide, by decide, by decide, by decide⟩
  · intro w a v d fn h
    obtain ⟨u5, r5, _, _, _, hw, _⟩ := mirror_da_ok w a v d fn h
    rw [hw]
    rfl
  · intro w a d fn h
    obtain ⟨u4, r4, _, _, _, hw, _⟩ := combo_da_ok w a d fn h
    rw [hw]
    rfl

/-- Witness for C10: the compromised content-disposition filename is written
outside the output directory. -/
theorem claim_C10_witness :
    (Apkmirror.download_app evilMWorld "com.example.app" none "out").writes.map Prod.fst =
      [pathJoin "out" "../evil.apk"] :=
  claim_C10.1 evilMWorld "com.example.app" none "out" "../evil.apk" (by decide)
